import Mathlib

/-!
Shallow embedding of the loan lifecycle engine of the sacco_app repository
(src/modules/loans.py and src/db_manager.py).

Monetary quantities (Python floats in the source) are modelled as rationals;
Python `round(x, 2)` is modelled by `round2` (round to nearest hundredth).
ISO-8601 date strings are modelled as integers (day numbers): in the source,
dates are stored as ISO strings and compared lexicographically, which agrees
with chronological order, and `timedelta(days = d)` is addition of `d`.
The four SQLite tables touched by the loans module are modelled as lists of
records inside a `DBState`; SQLite's rowid assignment on INSERT is modelled
as `length + 1` (tables here are append-only or update-in-place, never
subject to DELETE in the modelled operations).
-/

namespace Sacco

/-- Python `round(x, 2)`: round to the nearest multiple of 1/100.
(Python rounds exact ties to even; no claim below depends on tie behaviour,
only on the error bound `|round2 q - q| ≤ 1/200`.) -/
def round2 (q : ℚ) : ℚ := (round (100 * q) : ℤ) / 100

/-- A row of LoanTypesTbl: LoanName, InterestRate (annual percent),
DurationMonths, Active (INTEGER, seeded as 1). -/
structure LoanType where
  loanName : String
  interestRate : ℚ
  durationMonths : ℕ
  active : ℕ
deriving Repr, DecidableEq

/-- A row of LoansTbl. -/
structure Loan where
  loanID : ℕ
  memberID : String
  loanType : String
  loanAmount : ℚ
  interestRate : ℚ
  durationMonths : ℕ
  startDate : ℤ
  totalPayable : ℚ
  status : String
  approvalStatus : String
  disbursementDate : Option ℤ
  loanMethod : String
deriving Repr, DecidableEq

/-- A row of LoanRepaymentScheduleTbl.  The LoanID column is declared
INTEGER NOT NULL, so a persisted row always carries a concrete loan id; the
Python value the module tries to store there is whatever `DBManager.insert`
returned for the loan row, which may be `None` — the INSERT then fails, see
`generate_schedule`. -/
structure ScheduleEntry where
  scheduleID : ℕ
  loanID : ℕ
  dueDate : ℤ
  principal : ℚ
  interest : ℚ
  amountDue : ℚ
  amountPaid : ℚ
  status : String
deriving Repr, DecidableEq

/-- A row of LedgerTbl. -/
structure LedgerEntry where
  entryID : ℕ
  date : ℤ
  account : String
  debit : ℚ
  credit : ℚ
  description : String
deriving Repr, DecidableEq

/-- The tables the loans module reads and writes. -/
structure DBState where
  loanTypes : List LoanType
  loans : List Loan
  schedule : List ScheduleEntry
  ledger : List LedgerEntry
deriving Repr, DecidableEq

/-- The argument dictionary of `LoansModule.create_loan`.
`loanMethod` is optional: the source reads it with
`loan_data.get("LoanMethod", "Flat")`. -/
structure LoanData where
  memberID : String
  loanType : String
  loanAmount : ℚ
  startDate : ℤ
  loanMethod : Option String
deriving Repr, DecidableEq

/-- The `permissions` dictionary: `permissions.get("Approve", 0)` and
`permissions.get("Disburse", 0)`, read for truthiness. -/
structure Permissions where
  approve : Bool
  disburse : Bool
deriving Repr, DecidableEq

/-- An sqlite3 exception raised by a storage call. -/
inductive DBError
  | integrityError
deriving Repr, DecidableEq

/-- How a `create_loan` call ends.  `invalidLoanType`: warning box, bare
`return` (Python `None`).  `integrityError`: an sqlite3.IntegrityError raised
inside `generate_schedule` propagates out of `create_loan`, so nothing is
returned and no message box is shown.  `loanCreated`: information box, falls
off the end of the function (Python `None`). -/
inductive CreateLoanOutcome
  | invalidLoanType (returned : Option Loan)
  | integrityError
  | loanCreated (returned : Option Loan)
deriving Repr, DecidableEq

/-- The outcome of `approve_loan` / `disburse_loan`. -/
inductive OpMsg
  | permissionDenied
  | done
deriving Repr, DecidableEq

/-- Models `product = self.db.fetch_all(LOAN_TYPES_TABLE, "LoanName=? AND Active=1",
(loan_data["LoanType"],))` — the catalog rows matching the name with Active=1. -/
def lookupProduct (s : DBState) (name : String) : List LoanType :=
  s.loanTypes.filter (fun t => t.loanName == name && t.active == 1)

/-- SQLite-level INSERT into LoansTbl: the engine assigns the next rowid.
`DBManager.insert` (src/db_manager.py) executes this INSERT and commits, but
its body has no `return` statement, so the value the caller receives is
Python `None`: the second component is therefore `none`, never the assigned
rowid. -/
def insertLoan (s : DBState) (mk : ℕ → Loan) : DBState × Option ℕ :=
  ({ s with loans := s.loans ++ [mk (s.loans.length + 1)] }, none)

/-- The schedule row inserted at iteration `i` of the loop in
`LoansModule.generate_schedule`, given the rowid `sid` SQLite assigns to it.
In the source the loop variable `remaining` starts at `principal` and is
decremented by `monthly_principal` after each insert, so its value read at
iteration `i` is `principal - monthly_principal * i`. -/
def scheduleRow (loanId : ℕ) (principal rate : ℚ) (months : ℕ)
    (start : ℤ) (method : String) (i : ℕ) (sid : ℕ) : ScheduleEntry :=
  let monthly_principal := principal / months
  let remaining := principal - monthly_principal * i
  let interest := if method = "Flat" then (principal * rate) / months
                  else remaining * rate / 12
  let amount_due := monthly_principal + interest
  { scheduleID := sid
    loanID := loanId
    dueDate := start + 30 * ((i : ℤ) + 1)
    principal := round2 monthly_principal
    interest := round2 interest
    amountDue := round2 amount_due
    amountPaid := 0
    status := "Pending" }

/-- The list of rows `generate_schedule` inserts, with `baseLen` rows already
present in the schedule table (so SQLite assigns rowids `baseLen + 1`, ...). -/
def scheduleRows (baseLen : ℕ) (loanId : ℕ) (principal rate : ℚ)
    (months : ℕ) (start : ℤ) (method : String) : List ScheduleEntry :=
  (List.range months).map
    (fun i => scheduleRow loanId principal rate months start method i
      (baseLen + i + 1))

/-- Models `LoansModule.generate_schedule`.  `loanId` is the Python value the
caller passes (`Option ℕ`, since `DBManager.insert` returns `None`).  Each
loop iteration binds it into the NOT NULL LoanID column: with `loanId = none`
and a non-empty loop, the very first INSERT raises sqlite3.IntegrityError
before anything is stored; with `months = 0` the loop body never runs; with a
concrete id every INSERT succeeds. -/
def generate_schedule (s : DBState) (loanId : Option ℕ) (principal rate : ℚ)
    (months : ℕ) (start : ℤ) (method : String) : Except DBError DBState :=
  match loanId with
  | some lid =>
    Except.ok
      { s with
        schedule := s.schedule ++
          scheduleRows s.schedule.length lid principal rate months start method }
  | none =>
    if months = 0 then Except.ok s
    else Except.error DBError.integrityError

/-- Models `LoansModule.create_loan`.  Returns the final state and the
outcome.  The loan INSERT commits before `generate_schedule` runs, so when
the lost loan id makes the first schedule INSERT raise, the exception
propagates out of `create_loan` with the loan row already persisted and no
schedule rows.  On the paths that do return, the function returns Python
`None` (bare `return` on the invalid-type path, falling off the end on the
success path), never the created Loan. -/
def create_loan (s : DBState) (d : LoanData) : DBState × CreateLoanOutcome :=
  let loan_method := d.loanMethod.getD "Flat"
  match lookupProduct s d.loanType with
  | [] => (s, CreateLoanOutcome.invalidLoanType none)
  | product :: _ =>
    let principal := d.loanAmount
    let rate := product.interestRate / 100
    let months := product.durationMonths
    let total_interest :=
      if loan_method = "Flat" then
        principal * rate * ((months : ℚ) / 12)
      else
        ((List.range months).map
          (fun i => (principal - (principal / months) * (i : ℚ)) * rate / 12)).sum
    let total_payable := principal + total_interest
    let ins := insertLoan s (fun lid =>
      { loanID := lid
        memberID := d.memberID
        loanType := d.loanType
        loanAmount := principal
        interestRate := product.interestRate
        durationMonths := months
        startDate := d.startDate
        totalPayable := round2 total_payable
        status := "Active"
        approvalStatus := "Pending"
        disbursementDate := none
        loanMethod := loan_method })
    match generate_schedule ins.1 ins.2 principal rate months d.startDate loan_method with
    | Except.error _ => (ins.1, CreateLoanOutcome.integrityError)
    | Except.ok s2 => (s2, CreateLoanOutcome.loanCreated none)

/-- Models `LoansModule.approve_loan`: permission check, then an unconditional
`UPDATE LoansTbl SET ApprovalStatus='Approved' WHERE LoanID=?`. -/
def approve_loan (s : DBState) (loanId : ℕ) (perms : Permissions) : DBState × OpMsg :=
  if !perms.approve then (s, OpMsg.permissionDenied)
  else
    ({ s with loans := s.loans.map (fun l =>
        if l.loanID == loanId then { l with approvalStatus := "Approved" } else l) },
     OpMsg.done)

/-- Models `LoansModule.disburse_loan`: permission check, then an unconditional
`UPDATE LoansTbl SET ApprovalStatus='Disbursed', DisbursementDate=today`. -/
def disburse_loan (s : DBState) (loanId : ℕ) (perms : Permissions) (today : ℤ) :
    DBState × OpMsg :=
  if !perms.disburse then (s, OpMsg.permissionDenied)
  else
    ({ s with loans := s.loans.map (fun l =>
        if l.loanID == loanId then
          { l with approvalStatus := "Disbursed", disbursementDate := some today }
        else l) },
     OpMsg.done)

/-- The two LedgerTbl rows `record_payment` inserts for a payment, given
`baseLen` rows already in the ledger (SQLite assigns the next two rowids). -/
def paymentLedgerEntries (baseLen : ℕ) (scheduleId : ℕ) (amount : ℚ) (today : ℤ) :
    List LedgerEntry :=
  [ { entryID := baseLen + 1, date := today, account := "Cash",
      debit := amount, credit := 0,
      description := "Loan repayment Schedule " ++ toString scheduleId },
    { entryID := baseLen + 2, date := today, account := "Loan Receivable",
      debit := 0, credit := amount,
      description := "Loan repayment Schedule " ++ toString scheduleId } ]

/-- Models `LoansModule.record_payment`.  The source does
`fetch_all(SCHEDULE_TABLE, "ScheduleID=?", ...)[0]`, which raises IndexError
when no row matches; that failure is modelled as `none`. -/
def record_payment (s : DBState) (scheduleId : ℕ) (amount : ℚ) (today : ℤ) :
    Option DBState :=
  match s.schedule.filter (fun r => r.scheduleID == scheduleId) with
  | [] => none
  | row :: _ =>
    let paid := row.amountPaid + amount
    let status := if paid ≥ row.amountDue then "Paid" else "Partial"
    let s1 : DBState := { s with schedule := s.schedule.map (fun r =>
        if r.scheduleID == scheduleId then
          { r with amountPaid := paid, status := status }
        else r) }
    some { s1 with ledger := s1.ledger ++
      paymentLedgerEntries s1.ledger.length scheduleId amount today }

/-- Models `LoansModule.get_loan_balance`: a pure aggregation over the schedule rows
whose LoanID matches. -/
def get_loan_balance (s : DBState) (loanId : ℕ) (today : ℤ) : ℚ × ℚ :=
  let rows := s.schedule.filter (fun r => r.loanID == loanId)
  let balance := (rows.map (fun r => r.amountDue - r.amountPaid)).sum
  let arrears := ((rows.filter (fun r =>
      decide (r.dueDate < today) && decide (r.amountPaid < r.amountDue))).map
      (fun r => r.amountDue - r.amountPaid)).sum
  (balance, arrears)

/-! Spec-side definitions, written from the spec's words for comparison. -/

/-- Modelled from the spec (§4.2, C5): the Flat total interest,
`principal * (rate/100) * (durationMonths/12)`, with `rate` the annual
percentage rate. -/
def specFlatInterest (principal ratePercent : ℚ) (months : ℕ) : ℚ :=
  principal * (ratePercent / 100) * ((months : ℚ) / 12)

/-- Modelled from the spec (§4.2, C5): the Reduce total interest,
`Σ_{i=0}^{months-1} (principal - (principal/months)*i) * (rate/100) / 12`. -/
def specReduceInterest (principal ratePercent : ℚ) (months : ℕ) : ℚ :=
  ((List.range months).map
    (fun i => (principal - (principal / (months : ℚ)) * (i : ℚ)) * (ratePercent / 100) / 12)).sum

/-- Modelled from the spec (§3, C4): the status rule — Paid iff
`amountPaid >= amountDue`, else Partial iff `amountPaid > 0`, else Pending. -/
def specStatus (amountPaid amountDue : ℚ) : String :=
  if amountPaid ≥ amountDue then "Paid"
  else if amountPaid > 0 then "Partial"
  else "Pending"

/-- Modelled from the spec (§4.6, C10): `balance = Σ (amountDue - amountPaid)`
over the given schedule entries. -/
def specBalance (rows : List ScheduleEntry) : ℚ :=
  (rows.map (fun r => r.amountDue - r.amountPaid)).sum

/-- Modelled from the spec (§4.6, C10): `arrears = Σ (amountDue - amountPaid)`
over entries with `dueDate < today` and `amountPaid < amountDue`. -/
def specArrears (rows : List ScheduleEntry) (today : ℤ) : ℚ :=
  ((rows.filter (fun r =>
      decide (r.dueDate < today) && decide (r.amountPaid < r.amountDue))).map
    (fun r => r.amountDue - r.amountPaid)).sum

/-- The ApprovalStatus column of every LoansTbl row with the given LoanID. -/
def approvalStatuses (s : DBState) (loanId : ℕ) : List String :=
  (s.loans.filter (fun l => l.loanID == loanId)).map (fun l => l.approvalStatus)

/-! Concrete states used by the counterexamples and witnesses. -/

/-- Catalog with one active product: 10% annual over 6 months. -/
def c1State : DBState :=
  { loanTypes := [{ loanName := "Essential Commodities", interestRate := 10,
                    durationMonths := 6, active := 1 }]
    loans := [], schedule := [], ledger := [] }

/-- A flat loan application for 1200 against the 10%/6-month product. -/
def c1Data : LoanData :=
  { memberID := "M001", loanType := "Essential Commodities", loanAmount := 1200,
    startDate := 0, loanMethod := none }

/-- Catalog with one active product: 5% annual over 4 months. -/
def c2State : DBState :=
  { loanTypes := [{ loanName := "Emergency", interestRate := 5,
                    durationMonths := 4, active := 1 }]
    loans := [], schedule := [], ledger := [] }

/-- A flat loan application for 1000 against the 5%/4-month product. -/
def c2Data : LoanData :=
  { memberID := "M002", loanType := "Emergency", loanAmount := 1000,
    startDate := 100, loanMethod := none }

/-- A candidate LoansTbl row, as a function of the rowid SQLite assigns. -/
def c2MkLoan : ℕ → Loan := fun lid =>
  { loanID := lid, memberID := "M002", loanType := "Emergency", loanAmount := 1000,
    interestRate := 5, durationMonths := 4, startDate := 100,
    totalPayable := round2 (1000 + specFlatInterest 1000 5 4), status := "Active",
    approvalStatus := "Pending", disbursementDate := none, loanMethod := "Flat" }

/-- A state holding one loan that has already been Disbursed. -/
def c3State : DBState :=
  { loanTypes := [], ledger := [], schedule := []
    loans := [{ loanID := 1, memberID := "M001", loanType := "Car", loanAmount := 500,
                interestRate := 15, durationMonths := 36, startDate := 0,
                totalPayable := 725, status := "Active", approvalStatus := "Disbursed",
                disbursementDate := some 10, loanMethod := "Flat" }] }

/-- Both permissions granted. -/
def permsAll : Permissions := { approve := true, disburse := true }

/-- Neither permission granted. -/
def permsNone : Permissions := { approve := false, disburse := false }

/-- A schedule row of 100 due, nothing paid yet. -/
def c4Row : ScheduleEntry :=
  { scheduleID := 1, loanID := 1, dueDate := 30, principal := 80,
    interest := 20, amountDue := 100, amountPaid := 0, status := "Pending" }

/-- A state holding only `c4Row`. -/
def c4State : DBState :=
  { loanTypes := [], loans := [], ledger := [], schedule := [c4Row] }

/-- An active 10%-annual, 12-month catalog product. -/
def c5Product : LoanType :=
  { loanName := "Essential Commodities", interestRate := 10,
    durationMonths := 12, active := 1 }

/-- Catalog with one active product: 10% annual over 12 months. -/
def c5State : DBState :=
  { loanTypes := [c5Product], loans := [], schedule := [], ledger := [] }

/-- The spec's worked scenario: a flat loan of 12000 at 10% over 12 months. -/
def c5Data : LoanData :=
  { memberID := "M001", loanType := "Essential Commodities", loanAmount := 12000,
    startDate := 0, loanMethod := some "Flat" }

/-- Catalog holding only an inactive "Car" product. -/
def c7State : DBState :=
  { loanTypes := [{ loanName := "Car", interestRate := 15,
                    durationMonths := 36, active := 0 }]
    loans := [], schedule := [], ledger := [] }

/-- A loan application naming the inactive "Car" product. -/
def c7Data : LoanData :=
  { memberID := "M003", loanType := "Car", loanAmount := 2000,
    startDate := 0, loanMethod := none }

/-! Helper lemmas. -/

/-- Rounding to the nearest hundredth moves a value by at most half a cent. -/
theorem round2_sub_abs_le (q : ℚ) : |round2 q - q| ≤ 1 / 200 := by
  have h := abs_sub_round (100 * q)
  unfold round2
  have h2 : (round (100 * q) : ℚ) / 100 - q = -((100 * q - (round (100 * q) : ℚ)) / 100) := by
    ring
  rw [h2, abs_neg, abs_div]
  have h3 : |(100 : ℚ)| = 100 := by norm_num
  rw [h3]
  linarith

/-- Updating exactly the rows matched by `p` with an update `f` that preserves
`p` and forces the projection `g` to the constant `b`: afterwards the matched
rows project to `b`, one for each originally matched row. -/
theorem filter_map_update_proj {α β : Type} (p : α → Bool) (f : α → α) (g : α → β) (b : β)
    (hp : ∀ x, p (f x) = p x) (hg : ∀ x, p x = true → g (f x) = b) (xs : List α) :
    (((xs.map (fun x => if p x then f x else x)).filter p).map g) =
      List.replicate ((xs.filter p).length) b := by
  induction xs with
  | nil => simp
  | cons a t ih =>
    by_cases h : p a = true
    · simp only [List.map_cons, List.filter_cons, h, if_pos, hp a, List.length_cons,
        List.map_cons, List.replicate_succ, hg a h, ih]
    · have hb : p a = false := by simpa using h
      simp [hb, ih]

/-! Claim theorems. -/

/-- C9: when `approve_loan` is called with permissions whose Approve capability
is false, it fails with PermissionDenied and performs no state change: the
returned state is exactly the input state. -/
theorem approve_loan_permission_denied (s : DBState) (loanId : ℕ) (perms : Permissions)
    (h : perms.approve = false) :
    approve_loan s loanId perms = (s, OpMsg.permissionDenied) := by
  simp [approve_loan, h]

/-- C9 witness: `approve_loan_permission_denied` at a concrete state holding a
Disbursed loan, with both permissions absent. -/
theorem approve_loan_permission_denied_witness :
    permsNone.approve = false ∧
    approve_loan c3State 1 permsNone = (c3State, OpMsg.permissionDenied) :=
  ⟨rfl, approve_loan_permission_denied c3State 1 permsNone rfl⟩

/-- C10: `get_loan_balance` returns exactly the pair of the spec's balance
(sum of `amountDue - amountPaid` over all of the loan's schedule entries) and
the spec's arrears (the same sum over entries strictly past due and not fully
paid); it is a pure function of the state, so calling it twice without any
intervening update yields identical results. -/
theorem get_loan_balance_spec (s : DBState) (loanId : ℕ) (today : ℤ) :
    get_loan_balance s loanId today =
      (specBalance (s.schedule.filter (fun r => r.loanID == loanId)),
       specArrears (s.schedule.filter (fun r => r.loanID == loanId)) today) ∧
    get_loan_balance s loanId today = get_loan_balance s loanId today :=
  ⟨rfl, rfl⟩

/-- C7: when no catalog row both carries the requested loan type name and has
Active = 1 — which covers an absent name and an inactive name alike — 
`create_loan` reports InvalidLoanType, returns `none`, and leaves the state
untouched: absent and inactive names produce the very same outcome. -/
theorem create_loan_invalid_type_unchanged (s : DBState) (d : LoanData)
    (h : s.loanTypes.all (fun t => !(t.loanName == d.loanType && t.active == 1)) = true) :
    create_loan s d = (s, CreateLoanOutcome.invalidLoanType none) := by
  have hl : lookupProduct s d.loanType = [] := by
    unfold lookupProduct
    rw [List.filter_eq_nil_iff]
    intro t ht
    have h2 := List.all_eq_true.mp h t ht
    simp only [Bool.not_eq_true'] at h2
    simp [h2]
  unfold create_loan
  rw [hl]

/-- C7 witness: `create_loan_invalid_type_unchanged` at a catalog whose only
"Car" row is inactive (Active = 0). -/
theorem create_loan_invalid_type_unchanged_witness :
    c7State.loanTypes.all (fun t => !(t.loanName == c7Data.loanType && t.active == 1)) = true ∧
    create_loan c7State c7Data = (c7State, CreateLoanOutcome.invalidLoanType none) :=
  ⟨rfl, create_loan_invalid_type_unchanged c7State c7Data rfl⟩

/-- C3 counterexample: a loan already Disbursed is observably Approved again
after a single `approve_loan` call with the Approve permission, so the claimed
monotone progression Pending → Approved → Disbursed does not hold. -/
theorem approve_after_disburse_regresses :
    c3State.loans.map (fun l => l.approvalStatus) = ["Disbursed"] ∧
    (approve_loan c3State 1 permsAll).1.loans.map (fun l => l.approvalStatus) = ["Approved"] :=
  ⟨rfl, rfl⟩

/-- C3 amended: `approve_loan` and `disburse_loan` check only the permission,
never the current status: with the Approve permission, `approve_loan`
unconditionally sets every matching loan's approvalStatus to "Approved", and
with the Disburse permission `disburse_loan` unconditionally sets it to
"Disbursed", whatever the status was before — so the status is simply the last
successful write, and a Disbursed loan regresses to Approved on re-approval. -/
theorem approval_update_unconditional (s : DBState) (loanId : ℕ) (p q : Permissions)
    (today : ℤ) (hp : p.approve = true) (hq : q.disburse = true) :
    approvalStatuses (approve_loan s loanId p).1 loanId =
      List.replicate (approvalStatuses s loanId).length "Approved" ∧
    approvalStatuses (disburse_loan s loanId q today).1 loanId =
      List.replicate (approvalStatuses s loanId).length "Disbursed" := by
  constructor
  · unfold approve_loan
    rw [hp]
    unfold approvalStatuses
    simp only [Bool.not_true, Bool.false_eq_true, if_false, List.length_map]
    exact filter_map_update_proj (fun l => l.loanID == loanId)
      (fun l => { l with approvalStatus := "Approved" }) (fun l => l.approvalStatus)
      "Approved" (fun x => rfl) (fun x _ => rfl) s.loans
  · unfold disburse_loan
    rw [hq]
    unfold approvalStatuses
    simp only [Bool.not_true, Bool.false_eq_true, if_false, List.length_map]
    exact filter_map_update_proj (fun l => l.loanID == loanId)
      (fun l => { l with approvalStatus := "Disbursed", disbursementDate := some today })
      (fun l => l.approvalStatus) "Disbursed" (fun x => rfl) (fun x _ => rfl) s.loans

/-- C3 witness: `approval_update_unconditional` at a state holding a Disbursed
loan, with both permissions granted. -/
theorem approval_update_unconditional_witness :
    permsAll.approve = true ∧ permsAll.disburse = true ∧
    approvalStatuses (approve_loan c3State 1 permsAll).1 1 =
      List.replicate (approvalStatuses c3State 1).length "Approved" ∧
    approvalStatuses (disburse_loan c3State 1 permsAll 99).1 1 =
      List.replicate (approvalStatuses c3State 1).length "Disbursed" :=
  ⟨rfl, rfl, (approval_update_unconditional c3State 1 permsAll permsAll 99 rfl rfl).1,
    (approval_update_unconditional c3State 1 permsAll permsAll 99 rfl rfl).2⟩

/-- C1: the round-trip fails twice over for a Flat loan of 1200 at 10% annual
over 6 months.  In the program itself, `create_loan` commits the loan row
with TotalPayable = 1260 and then raises IntegrityError at the first schedule
INSERT (the loan id was lost), so no schedule rows exist and their AmountDue
sum is vacuously 0 ≠ 1260.  And independently of that crash, the rows the
schedule generator computes — as it would persist them for a valid loan id — 
have AmountDue summing to 1320 (per-month interest `principal*rate/months`,
totalling a full year's worth, against the pro-rated `months/12` charge in
TotalPayable): a gap of 60 against the 0.06 tolerance. -/
theorem create_loan_flat_interest_mismatch :
    (create_loan c1State c1Data).2 = CreateLoanOutcome.integrityError ∧
    (create_loan c1State c1Data).1.schedule = [] ∧
    (create_loan c1State c1Data).1.loans.map (fun l => l.totalPayable) = [1260] ∧
    ((scheduleRows 0 1 1200 (1 / 10) 6 0 "Flat").map (fun e => e.amountDue)).sum = 1320 ∧
    ¬(|(1320 : ℚ) - 1260| ≤ 6 * (1 / 100)) := by
  refine ⟨?_, ?_, ?_, ?_, by norm_num⟩
  · simp [create_loan, c1State, c1Data, lookupProduct, insertLoan, generate_schedule]
  · simp [create_loan, c1State, c1Data, lookupProduct, insertLoan, generate_schedule]
  · simp [create_loan, c1State, c1Data, lookupProduct, insertLoan, generate_schedule,
          round2]
    norm_num [round_eq]
  · simp [scheduleRows, scheduleRow, round2, List.range_succ]
    norm_num [round_eq]

/-- C2: the storage insert primitive returns `none` — not the assigned id — 
and in consequence `create_loan` never returns the created Loan: the lost id
makes the first schedule INSERT raise IntegrityError, which propagates out of
`create_loan`, leaving the loan row (assigned id 1) committed and not a
single schedule entry persisted to carry that id. -/
theorem create_loan_assigned_id_lost :
    (insertLoan c2State c2MkLoan).2 = none ∧
    (create_loan c2State c2Data).2 = CreateLoanOutcome.integrityError ∧
    (create_loan c2State c2Data).1.loans.map (fun l => l.loanID) = [1] ∧
    (create_loan c2State c2Data).1.schedule = [] := by
  refine ⟨rfl, ?_, ?_, ?_⟩
  · simp [create_loan, c2State, c2Data, lookupProduct, insertLoan, generate_schedule]
  · simp [create_loan, c2State, c2Data, lookupProduct, insertLoan, generate_schedule]
  · simp [create_loan, c2State, c2Data, lookupProduct, insertLoan, generate_schedule]

/-- C4 counterexample: `record_payment` of amount 0 on a fresh entry
(amountPaid = 0, amountDue = 100) persists status "Partial", while the spec's
status rule yields "Pending" for newPaid = 0 — refuting the claimed
three-case rule. -/
theorem record_payment_zero_marks_partial :
    (record_payment c4State 1 0 5).map (fun st => st.schedule.map (fun r => r.status)) =
      some ["Partial"] ∧
    specStatus (c4Row.amountPaid + 0) c4Row.amountDue = "Pending" ∧
    ("Partial" : String) ≠ "Pending" := by
  refine ⟨?_, ?_, by decide⟩
  · simp [record_payment, c4State, c4Row, paymentLedgerEntries]
  · norm_num [specStatus, c4Row]

/-- C4 amended: after `record_payment` sets newPaid = amountPaid + amount, the
persisted status of every matching schedule row is "Paid" iff
newPaid ≥ amountDue and "Partial" otherwise; `record_payment` never persists
"Pending", even when newPaid = 0. -/
theorem record_payment_status_amended (s : DBState) (sid : ℕ) (amount : ℚ) (today : ℤ)
    (row : ScheduleEntry) (rest : List ScheduleEntry)
    (hrow : s.schedule.filter (fun r => r.scheduleID == sid) = row :: rest) :
    (record_payment s sid amount today).map (fun st =>
        (st.schedule.filter (fun r => r.scheduleID == sid)).map
          (fun r => (r.amountPaid, r.status))) =
      some (List.replicate ((s.schedule.filter (fun r => r.scheduleID == sid)).length)
        (row.amountPaid + amount,
         if row.amountPaid + amount ≥ row.amountDue then "Paid" else "Partial")) := by
  have h2 := filter_map_update_proj (fun r => r.scheduleID == sid)
    (fun r : ScheduleEntry =>
      { r with amountPaid := row.amountPaid + amount
               status := if row.amountPaid + amount ≥ row.amountDue then "Paid" else "Partial" })
    (fun r : ScheduleEntry => (r.amountPaid, r.status))
    (row.amountPaid + amount,
     if row.amountPaid + amount ≥ row.amountDue then "Paid" else "Partial")
    (fun x => rfl) (fun x _ => rfl) s.schedule
  rw [hrow] at h2
  unfold record_payment
  rw [hrow]
  simp only [Option.map_some']
  exact congrArg some h2

/-- C4 witness: `record_payment_status_amended` at a concrete partial payment
of 40 against 100 due. -/
theorem record_payment_status_amended_witness :
    c4State.schedule.filter (fun r => r.scheduleID == 1) = c4Row :: [] ∧
    (record_payment c4State 1 40 5).map (fun st =>
        (st.schedule.filter (fun r => r.scheduleID == 1)).map
          (fun r => (r.amountPaid, r.status))) =
      some (List.replicate ((c4State.schedule.filter (fun r => r.scheduleID == 1)).length)
        (c4Row.amountPaid + 40,
         if c4Row.amountPaid + 40 ≥ c4Row.amountDue then "Paid" else "Partial")) :=
  ⟨rfl, record_payment_status_amended c4State 1 40 5 c4Row [] rfl⟩

/-- C5: when the loan type resolves to a catalog product, `create_loan`
appends one loan whose persisted TotalPayable is `round2` of principal plus
the spec's interest formula for the chosen method — Flat:
`principal * (rate/100) * (months/12)`; Reduce:
`Σ_{i<months} (principal - (principal/months)*i) * (rate/100) / 12` — and in
particular the spec's scenario 12000 at 10% over 12 months, Flat, yields
13200. -/
theorem create_loan_total_payable_spec (s : DBState) (d : LoanData)
    (product : LoanType) (rest : List LoanType)
    (h : lookupProduct s d.loanType = product :: rest) :
    (create_loan s d).1.loans.map (fun l => l.totalPayable) =
      s.loans.map (fun l => l.totalPayable) ++
        [round2 (d.loanAmount +
          (if d.loanMethod.getD "Flat" = "Flat" then
            specFlatInterest d.loanAmount product.interestRate product.durationMonths
          else
            specReduceInterest d.loanAmount product.interestRate product.durationMonths))] ∧
    round2 (12000 + specFlatInterest 12000 10 12) = 13200 := by
  constructor
  · unfold create_loan
    rw [h]
    by_cases hm : product.durationMonths = 0 <;>
      simp [hm, generate_schedule, insertLoan, specFlatInterest, specReduceInterest]
  · norm_num [specFlatInterest, round2, round_eq]

/-- C5 witness: `create_loan_total_payable_spec` at the spec's worked
scenario (12000, 10%, 12 months, Flat). -/
theorem create_loan_total_payable_spec_witness :
    lookupProduct c5State c5Data.loanType = c5Product :: [] ∧
    (create_loan c5State c5Data).1.loans.map (fun l => l.totalPayable) =
      c5State.loans.map (fun l => l.totalPayable) ++
        [round2 (c5Data.loanAmount +
          (if c5Data.loanMethod.getD "Flat" = "Flat" then
            specFlatInterest c5Data.loanAmount c5Product.interestRate c5Product.durationMonths
          else
            specReduceInterest c5Data.loanAmount c5Product.interestRate c5Product.durationMonths))] ∧
    round2 (12000 + specFlatInterest 12000 10 12) = 13200 :=
  ⟨rfl, (create_loan_total_payable_spec c5State c5Data c5Product [] rfl).1,
    (create_loan_total_payable_spec c5State c5Data c5Product [] rfl).2⟩

/-- C6: every successful `record_payment` appends exactly the two ledger rows
dated today that reference the schedule entry in their description — a debit
of `amount` to "Cash" and a credit of `amount` to "Loan Receivable" — and
the event's total debits equal its total credits. -/
theorem record_payment_double_entry (s : DBState) (sid : ℕ) (amount : ℚ) (today : ℤ)
    (row : ScheduleEntry) (rest : List ScheduleEntry)
    (hrow : s.schedule.filter (fun r => r.scheduleID == sid) = row :: rest) :
    (record_payment s sid amount today).map (fun st => st.ledger) =
      some (s.ledger ++
        [ { entryID := s.ledger.length + 1, date := today, account := "Cash",
            debit := amount, credit := 0,
            description := "Loan repayment Schedule " ++ toString sid },
          { entryID := s.ledger.length + 2, date := today, account := "Loan Receivable",
            debit := 0, credit := amount,
            description := "Loan repayment Schedule " ++ toString sid } ]) ∧
    ((paymentLedgerEntries s.ledger.length sid amount today).map (fun e => e.debit)).sum =
      ((paymentLedgerEntries s.ledger.length sid amount today).map (fun e => e.credit)).sum := by
  constructor
  · unfold record_payment
    rw [hrow]
    simp [paymentLedgerEntries]
  · simp [paymentLedgerEntries]

/-- C6 witness: `record_payment_double_entry` at a concrete payment of 100. -/
theorem record_payment_double_entry_witness :
    c4State.schedule.filter (fun r => r.scheduleID == 1) = c4Row :: [] ∧
    ((record_payment c4State 1 100 5).map (fun st => st.ledger) =
      some (c4State.ledger ++
        [ { entryID := c4State.ledger.length + 1, date := 5, account := "Cash",
            debit := 100, credit := 0,
            description := "Loan repayment Schedule " ++ toString 1 },
          { entryID := c4State.ledger.length + 2, date := 5, account := "Loan Receivable",
            debit := 0, credit := 100,
            description := "Loan repayment Schedule " ++ toString 1 } ]) ∧
    ((paymentLedgerEntries c4State.ledger.length 1 100 5).map (fun e => e.debit)).sum =
      ((paymentLedgerEntries c4State.ledger.length 1 100 5).map (fun e => e.credit)).sum) :=
  ⟨rfl, record_payment_double_entry c4State 1 100 5 c4Row [] rfl⟩

/-- C8: for every schedule generated by `generate_schedule` with months > 0,
the persisted principal components (each `round2 (principal / months)`) sum
to the loan's principal within 1 cent times the number of months. -/
theorem schedule_principal_sum_tolerance (baseLen : ℕ) (loanId : ℕ)
    (principal rate : ℚ) (months : ℕ) (start : ℤ) (method : String)
    (hm : 0 < months) :
    |((scheduleRows baseLen loanId principal rate months start method).map
        (fun e => e.principal)).sum - principal| ≤ (months : ℚ) * (1 / 100) := by
  have hmapped : (scheduleRows baseLen loanId principal rate months start method).map
      (fun e => e.principal) = List.replicate months (round2 (principal / (months : ℚ))) := by
    simp only [scheduleRows, List.map_map]
    have hfun : ((fun e : ScheduleEntry => e.principal) ∘ fun i =>
        scheduleRow loanId principal rate months start method i (baseLen + i + 1)) =
        (fun i : ℕ => round2 (principal / (months : ℚ))) := rfl
    rw [hfun, List.map_const', List.length_range]
  rw [hmapped, List.sum_replicate, nsmul_eq_mul]
  have hm0 : (months : ℚ) ≠ 0 := Nat.cast_ne_zero.mpr hm.ne'
  set q : ℚ := principal / (months : ℚ) with hq
  have herr := round2_sub_abs_le q
  have hPm : principal = (months : ℚ) * q := by
    rw [hq]; field_simp
  have hnn : (0 : ℚ) ≤ (months : ℚ) := Nat.cast_nonneg months
  calc |(months : ℚ) * round2 q - principal|
      = |(months : ℚ)| * |round2 q - q| := by
        rw [hPm, ← mul_sub, abs_mul]
    _ = (months : ℚ) * |round2 q - q| := by rw [abs_of_nonneg hnn]
    _ ≤ (months : ℚ) * (1 / 200) := mul_le_mul_of_nonneg_left herr hnn
    _ ≤ (months : ℚ) * (1 / 100) := mul_le_mul_of_nonneg_left (by norm_num) hnn

/-- C8 witness: `schedule_principal_sum_tolerance` for a 1000 principal over
3 months. -/
theorem schedule_principal_sum_tolerance_witness :
    0 < 3 ∧
    |((scheduleRows 0 1 1000 (1 / 10) 3 0 "Flat").map
        (fun e => e.principal)).sum - 1000| ≤ ((3 : ℕ) : ℚ) * (1 / 100) :=
  ⟨by norm_num, schedule_principal_sum_tolerance 0 1 1000 (1 / 10) 3 0 "Flat"
    (by norm_num)⟩

end Sacco
